import Mathlib

/-!
Verification of the routing / execution / synthesis core of the krishi-bandhu
backend (`backend/agents/real_orchestrator.py`, `backend/agents/real_market_agent.py`,
`backend/agents/market_tools/tier1_direct_scrape.py`) against its specification.

External collaborators (the text-generation service, HTTP fetches, JSON parsing
of free-form replies) are modelled as oracle parameters whose outcomes range over
`Except` / `Option`; every theorem quantifies over all oracle outcomes, so a
result holds for every behaviour of the collaborators.  Python float constants
are embedded as rationals; Python string truthiness is embedded as comparison
with the empty string / empty list.
-/

namespace KrishiBandhu

/-!
Python string operations are embedded over the character list of the string
(`String.toList` / `String.mk`), which the kernel evaluates directly; the
byte-position-based core `String` API is avoided because it does not reduce
definitionally.
-/

/-- Does `needle` occur as a contiguous run starting at some position of `haystack`? -/
def occursIn (needle : List Char) : List Char → Bool
  | [] => needle.isPrefixOf []
  | c :: rest => needle.isPrefixOf (c :: rest) || occursIn needle rest

/-- Substring test: Python `needle in haystack`. -/
def strContains (haystack needle : String) : Bool :=
  occursIn needle.toList haystack.toList

/-- Python `str.lower()`. -/
def pyLower (s : String) : String :=
  String.mk (s.toList.map Char.toLower)

/-- Python `str.upper()`. -/
def pyUpper (s : String) : String :=
  String.mk (s.toList.map Char.toUpper)

/-- Python `str.strip()`: whitespace removed from both ends. -/
def pyStrip (s : String) : String :=
  String.mk (((s.toList.dropWhile Char.isWhitespace).reverse.dropWhile
    Char.isWhitespace).reverse)

/-- Python `str.startswith(p)`. -/
def pyStartsWith (s p : String) : Bool :=
  p.toList.isPrefixOf s.toList

/-- Python `str.endswith(p)`. -/
def pyEndsWith (s p : String) : Bool :=
  p.toList.reverse.isPrefixOf s.toList.reverse

/-- Python slicing `s[n:]` (by characters). -/
def pyDrop (s : String) (n : ℕ) : String :=
  String.mk (s.toList.drop n)

/-- Python slicing `s[:-n]` written as drop-right (by characters). -/
def pyDropRight (s : String) (n : ℕ) : String :=
  String.mk (s.toList.take (s.toList.length - n))

/-- Python slicing `s[:n]` (by characters). -/
def pyTake (s : String) (n : ℕ) : String :=
  String.mk (s.toList.take n)

/-- Python `len(s)` (in characters). -/
def pyLen (s : String) : ℕ :=
  s.toList.length

/-- Python `s.split(",")` on a character list (empty pieces kept). -/
def splitComma : List Char → List (List Char)
  | [] => [[]]
  | c :: rest =>
    match splitComma rest with
    | [] => [[c]]
    | h :: t => if c = ',' then [] :: h :: t else (c :: h) :: t

/-- One agent response dict as stored in `agent_responses`:
a `response` text and an optional `error` description. -/
structure AgentResponse where
  response : String
  error : Option String := none
  deriving Repr, DecidableEq

/-- `non_agri_keywords` from `_analyze_query` (real_orchestrator.py lines 125–135). -/
def nonAgriKeywords : List String :=
  ["football", "cricket", "soccer", "basketball", "tennis", "sports", "game", "play",
   "movie", "film", "cinema", "entertainment", "music", "song", "dance",
   "politics", "election", "government", "political",
   "technology", "computer", "mobile", "phone", "internet", "social media", "facebook", "instagram",
   "cooking", "recipe", "food", "restaurant", "hotel", "travel", "tourism", "vacation",
   "school", "college", "university", "education", "study", "exam", "test",
   "job", "work", "office", "business", "company", "career",
   "health", "medical", "doctor", "hospital", "medicine", "disease", "sickness",
   "shopping", "buy", "purchase", "store", "market", "mall"]

/-- `any(keyword in query_lower for keyword in non_agri_keywords)` with
`query_lower = state.query.lower()`. -/
def isClearlyNonAgri (query : String) : Bool :=
  nonAgriKeywords.any (fun k => strContains (pyLower query) k)

/-- The canned redirect message for non-agricultural queries
(real_orchestrator.py lines 146–149). -/
def politeResponse (userName language : String) : String :=
  if language = "hi" then
    "नमस्ते " ++ userName ++ "! मैं एक कृषि विशेषज्ञ AI सहायक हूं। मैं खेती, फसल प्रबंधन, मौसम, और सरकारी योजनाओं के बारे में मदद कर सकता हूं। क्या आप कृषि से संबंधित कोई प्रश्न पूछना चाहेंगे?"
  else
    "Hello " ++ userName ++ "! I\x27m an agricultural AI assistant. I can help you with farming, crop management, weather, and government schemes. Would you like to ask something related to agriculture?"

/-- Markdown-fence cleaning applied to the classification reply
(real_orchestrator.py lines 224–230). -/
def cleanLLMReply (response : String) : String :=
  let c := pyStrip response
  let c := if pyStartsWith c "```json" then pyDrop c 7 else c
  let c := if pyStartsWith c "```" then pyDrop c 3 else c
  if pyEndsWith c "```" then pyDropRight c 3 else c

/-- The fields the router reads out of a successfully parsed classification
reply: `primary_agent`, `secondary_agents`, `routing_confidence`, `reasoning`. -/
structure Analysis where
  primaryAgent : String
  secondaryAgents : List String
  routingConfidence : ℚ
  reasoning : String
  deriving Repr, DecidableEq

/-- The mutable `OrchestratorState` fields the routing, execution and synthesis
nodes read and write (dataclass defaults mirrored). -/
structure OrchestratorState where
  query : String := ""
  selectedAgents : List String := []
  routingConfidence : ℚ := 0
  routingReasoning : String := ""
  agentResponses : List (String × AgentResponse) := []
  finalResponse : String := ""
  synthesisQuality : ℚ := 0
  deriving Repr, DecidableEq

/-- `_analyze_query` (real_orchestrator.py lines 118–260).
`parse` is the oracle for `json.loads` plus field extraction on the cleaned
reply (`none` covers `JSONDecodeError`); `llm` is the oracle for
`llm_service.get_completion` (`Except.error` covers a raised exception, which
the outer `except` turns into the general-agent fallback). -/
def analyzeQuery (parse : String → Option Analysis) (llm : Except String String)
    (userName language : String) (st : OrchestratorState) : OrchestratorState :=
  if isClearlyNonAgri st.query then
    { st with
      selectedAgents := []
      routingConfidence := 1
      routingReasoning :=
        "Query \x27" ++ st.query ++ "\x27 is clearly non-agricultural and has been politely redirected"
      finalResponse := politeResponse userName language
      agentResponses := st.agentResponses
      synthesisQuality := 1 }
  else
    match llm with
    | .error _ =>
      { st with
        selectedAgents := ["general"]
        routingConfidence := 1/2
        routingReasoning := "Fallback to general agent due to analysis error" }
    | .ok response =>
      if pyStrip response = "" then
        { st with
          selectedAgents := ["general"]
          routingConfidence := 1/2
          routingReasoning := "Fallback to general agent due to empty LLM response" }
      else
        match parse (cleanLLMReply response) with
        | none =>
          { st with
            selectedAgents := ["general"]
            routingConfidence := 1/2
            routingReasoning := "Fallback to general agent due to JSON parsing error" }
        | some a =>
          { st with
            selectedAgents := a.primaryAgent :: a.secondaryAgents
            routingConfidence := a.routingConfidence
            routingReasoning := a.reasoning }

/-- `_simple_route_query` (real_orchestrator.py lines 639–657): the
deterministic keyword-to-handler fallback table. -/
def simpleRouteQuery (query : String) (hasImage : Bool) : List String :=
  let q := pyLower query
  if hasImage && (["crop", "plant", "disease", "pest", "happening", "problem", "issue"].any
      (fun w => strContains q w)) then
    ["pest"]
  else if ["weather", "rain", "temperature", "forecast"].any (fun w => strContains q w) then
    ["weather"]
  else if ["pest", "disease", "insect", "fungus"].any (fun w => strContains q w) then
    ["pest"]
  else if ["price", "market", "sell", "buy", "cost"].any (fun w => strContains q w) then
    ["market"]
  else if ["loan", "scheme", "government", "subsidy", "kcc"].any (fun w => strContains q w) then
    ["finance"]
  else
    ["general"]

/-- The keys of `method_map` in `_execute_agents` (real_orchestrator.py
lines 284–290): the handler ids that resolve to an agent method. -/
def methodMapAgents : List String := ["weather", "pest", "market", "finance", "general"]

/-- How one awaited agent task is recorded into `agent_responses`
(real_orchestrator.py lines 302–312): a normal return is stored as is, a
raised exception is stored as an error entry. -/
def recordOutcome (name : String) (o : Except String AgentResponse) : AgentResponse :=
  match o with
  | .ok r => r
  | .error e => { response := name ++ " agent encountered an error", error := some e }

/-- Python dict assignment `d[k] = v` on an insertion-ordered association list. -/
def dictInsert (k : String) (v : AgentResponse) (d : List (String × AgentResponse)) :
    List (String × AgentResponse) :=
  if k ∈ d.map Prod.fst then
    d.map (fun p => if p.1 = k then (p.1, v) else p)
  else
    d ++ [(k, v)]

/-- The await loop of `_execute_agents`: tasks are awaited in creation order and
each outcome is written into the `agent_responses` dict. -/
def execLoop (outcomes : String → Except String AgentResponse) :
    List String → List (String × AgentResponse) → List (String × AgentResponse)
  | [], acc => acc
  | n :: rest, acc => execLoop outcomes rest (dictInsert n (recordOutcome n (outcomes n)) acc)

/-- `_execute_agents` (real_orchestrator.py lines 262–323): tasks are created
for the selected agent names found in `method_map` (unknown names are skipped
with a log line), then awaited one by one; `outcomes` is the oracle giving each
agent invocation result. -/
def executeAgentsMap (outcomes : String → Except String AgentResponse)
    (selected : List String) : List (String × AgentResponse) :=
  execLoop outcomes (selected.filter (fun a => methodMapAgents.contains a)) []

/-- Number of agent tasks created (and awaited) by `_execute_agents`. -/
def executeAgentsTaskCount (selected : List String) : ℕ :=
  (selected.filter (fun a => methodMapAgents.contains a)).length

/-- The `execute_agents` graph node: stores the collected responses. -/
def executeAgents (outcomes : String → Except String AgentResponse)
    (st : OrchestratorState) : OrchestratorState :=
  { st with agentResponses := executeAgentsMap outcomes st.selectedAgents }

/-- `_synthesize_response` (real_orchestrator.py lines 325–391).  `llm` is the
oracle for the synthesis `get_completion` call: a returned string is used as
the final response with quality 0.9; a raised exception falls back to the
first available agent response (prefixed and truncated when longer than 100
characters), or to a generic message when there is no response, with
quality 0.5. -/
def synthesizeResponse (llm : Except String String) (userName : String)
    (st : OrchestratorState) : OrchestratorState :=
  match llm with
  | .ok s =>
    { st with finalResponse := s, synthesisQuality := 9/10 }
  | .error _ =>
    match st.agentResponses with
    | [] =>
      { st with
        finalResponse := "Unable to process your request. Please try again."
        synthesisQuality := 1/2 }
    | (_, first) :: _ =>
      let original := first.response
      { st with
        finalResponse :=
          if pyLen original > 100 then
            "Hello " ++ userName ++ "! " ++ pyTake original 100 ++ "..."
          else original
        synthesisQuality := 1/2 }

/-- Result of one run of the compiled orchestration graph, with the
instrumentation the testable properties talk about: how many agent tasks the
execution node created and whether the classification LLM call was made. -/
structure WorkflowTrace where
  finalState : OrchestratorState
  handlerCalls : ℕ
  classifyLLMCalled : Bool
  deriving Repr, DecidableEq

/-- The orchestration workflow (`_build_orchestrator_graph`,
real_orchestrator.py lines 83–116): `analyze_query`, then — unless zero agents
were selected (`should_execute_agents` returns `end`) — `execute_agents`
followed by `synthesize_response`. -/
def runWorkflow (parse : String → Option Analysis)
    (llmClassify llmSynth : Except String String)
    (outcomes : String → Except String AgentResponse)
    (userName language : String) (st : OrchestratorState) : WorkflowTrace :=
  let st1 := analyzeQuery parse llmClassify userName language st
  let classifyCalled := ! isClearlyNonAgri st.query
  if st1.selectedAgents.isEmpty then
    ⟨st1, 0, classifyCalled⟩
  else
    ⟨synthesizeResponse llmSynth userName (executeAgents outcomes st1),
      executeAgentsTaskCount st1.selectedAgents, classifyCalled⟩

/-- Dict lookup `d.get(k)` on the response map. -/
def lookupResp (d : List (String × AgentResponse)) (k : String) : Option AgentResponse :=
  (d.find? (fun p => p.1 = k)).map Prod.snd

/-- The dict `process_query` returns to its caller (the keys every return site
of real_orchestrator.py lines 393–637 populates). -/
structure QueryResult where
  response : String
  selectedAgents : List String
  routingConfidence : ℚ
  routingReasoning : String
  synthesisQuality : ℚ
  error : Option String := none
  deriving Repr, DecidableEq

/-- `_fallback_process_query` (real_orchestrator.py lines 546–637): keyword
routing via `_simple_route_query`, direct agent execution, first-response
extraction with the pest-only cleanup; `fallbackFails` is the oracle for an
exception raised inside this method itself (its `except` branch). -/
def fallbackProcessQuery (outcomes : String → Except String AgentResponse)
    (fallbackFails : Option String) (query : String) (hasImage : Bool) : QueryResult :=
  match fallbackFails with
  | some e =>
    { response := "System is temporarily unavailable. Please try again later."
      selectedAgents := ["general"]
      routingConfidence := 0
      routingReasoning := "Fallback error"
      synthesisQuality := 0
      error := some e }
  | none =>
    let selected := simpleRouteQuery query hasImage
    let responses := executeAgentsMap outcomes selected
    let final0 :=
      match responses with
      | [] => "No response available"
      | (_, first) :: _ => first.response
    let final :=
      if selected = ["pest"] then
        match lookupResp responses "pest" with
        | some r => r.response
        | none => final0
      else final0
    { response := final
      selectedAgents := selected
      routingConfidence := 7/10
      routingReasoning := "Fallback routing to " ++ selected.headD "" ++ " based on keywords"
      synthesisQuality := 3/5
      error := none }

/-- `process_query` (real_orchestrator.py lines 393–544).  `outerFails` is the
oracle for an exception before or outside the workflow invocation (outermost
`except`), `graphFails` for an exception raised by the graph invocation itself
(`workflow_error`, which triggers `_fallback_process_query`). -/
def processQuery (parse : String → Option Analysis)
    (llmClassify llmSynth : Except String String)
    (outcomes : String → Except String AgentResponse)
    (outerFails graphFails fallbackFails : Option String)
    (query userName language : String) (hasImage : Bool) : QueryResult :=
  match outerFails with
  | some e =>
    { response := "System encountered an error. Please try again."
      selectedAgents := ["general"]
      routingConfidence := 0
      routingReasoning := "Error in orchestration"
      synthesisQuality := 0
      error := some e }
  | none =>
    match graphFails with
    | some _ => fallbackProcessQuery outcomes fallbackFails query hasImage
    | none =>
      let tr := runWorkflow parse llmClassify llmSynth outcomes userName language { query := query }
      let fs := tr.finalState
      { response := fs.finalResponse
        selectedAgents := fs.selectedAgents
        routingConfidence := fs.routingConfidence
        routingReasoning := fs.routingReasoning
        synthesisQuality := fs.synthesisQuality
        error := none }

/-! ### Timed model of the execution step

`_execute_agents` calls each agent method, which returns a coroutine object,
and appends it to `agent_tasks` without scheduling it; under the asyncio
semantics a bare coroutine starts running only when it is awaited.  The await
loop (real_orchestrator.py lines 300–312) therefore starts the k-th coroutine
only after the (k-1)-th has finished: awaiting a coroutine of latency `L`
beginning at time `t` completes at `t + L`. -/

/-- Finish time of the sequential await loop started at time `t`. -/
def awaitLoop (latency : String → ℕ) : List String → ℕ → ℕ
  | [], t => t
  | name :: rest, t => awaitLoop latency rest (t + latency name)

/-- Wall-clock duration of `_execute_agents` for the given per-agent
latencies (tasks created instantaneously, then awaited in order). -/
def executeAgentsElapsed (latency : String → ℕ) (selected : List String) : ℕ :=
  awaitLoop latency (selected.filter (fun a => methodMapAgents.contains a)) 0

/-- Modelled from the spec: wall-clock duration of a fan-out step in which all
selected handler tasks are started concurrently and awaited together, as
section 4.2 and section 5 of the specification describe (this is what
`asyncio.gather` or pre-scheduled tasks would give; the code does not do
this). -/
def concurrentElapsed (latency : String → ℕ) (selected : List String) : ℕ :=
  ((selected.filter (fun a => methodMapAgents.contains a)).map latency).foldr max 0

/-! ### Market agent: tiered escalation (real_market_agent.py) -/

/-- One market price entry (the payload dicts the tier tools produce are
treated as opaque values; only the `price` key is inspected by the code under
verification). -/
structure MEntry where
  commodity : String
  price : ℚ
  source : String := "eNAM"
  deriving Repr, DecidableEq

/-- `_validate_price` (tier1_direct_scrape.py lines 220–230). -/
def validatePrice (price : ℚ) (commodity : String) : Bool :=
  let c := pyLower commodity
  let r : ℚ × ℚ :=
    if c = "tomato" then (300, 8000)
    else if c = "wheat" then (1500, 4000)
    else if c = "rice" then (1200, 4500)
    else if c = "onion" then (400, 6000)
    else if c = "potato" then (300, 4000)
    else (100, 15000)
  if r.1 ≤ price ∧ price ≤ r.2 then true else false

/-- What one `tier.execute(...)` call contributes to `market_data` in
`_gather_market_data`: `Except.error` is a raised exception (caught by that
tier\x27s own `except`, treated as a miss), `.ok none` and `.ok (some [])` are
falsy returns that extend nothing. -/
def tierData (r : Except String (Option (List MEntry))) : List MEntry :=
  match r with
  | .ok (some l) => l
  | .ok none => []
  | .error _ => []

/-- Oracle outcomes for the three tier tools within one fetch. -/
structure TierOutcomes where
  t1 : Except String (Option (List MEntry))
  t2 : Except String (Option (List MEntry))
  t3 : Except String (Option (List MEntry))

/-- Result of `_gather_market_data`, instrumented with which tiers were
invoked. -/
structure GatherOut where
  data : List MEntry
  t1Called : Bool
  t2Called : Bool
  t3Called : Bool
  deriving Repr, DecidableEq

/-- `_gather_market_data` (real_market_agent.py lines 78–116): tier 1 is always
attempted; tier 2 is attempted when fewer than 3 entries have accumulated;
tier 3 when fewer than 5 have; results are accumulated with `extend`, and each
tier\x27s exception is caught locally. -/
def gatherMarketData (o : TierOutcomes) : GatherOut :=
  let d1 := tierData o.t1
  let call2 := d1.length < 3
  let d12 := d1 ++ (if call2 then tierData o.t2 else [])
  let call3 := d12.length < 5
  let data := d12 ++ (if call3 then tierData o.t3 else [])
  ⟨data, true, call2, call3⟩

/-! ### Tier 1 tool with its in-memory cache (tier1_direct_scrape.py) -/

/-- `self._cache`: key to (created-at, value); insertion-ordered like a dict. -/
abbrev Cache := List (String × ℕ × List MEntry)

/-- `self._cache_ttl = 900` seconds. -/
def cacheTTL : ℕ := 900

/-- `self._cache.get(key)`. -/
def cacheLookup : Cache → String → Option (ℕ × List MEntry)
  | [], _ => none
  | e :: rest, key => if e.1 = key then some e.2 else cacheLookup rest key

/-- `self._cache.pop(key, None)` (keeping order of the remaining entries). -/
def cacheRemove (c : Cache) (key : String) : Cache :=
  c.filter (fun e => e.1 ≠ key)

/-- `_cache_get` (tier1_direct_scrape.py lines 256–262): a fresh entry is
returned; a missing or expired entry yields `none` and a `pop`.  Time is an
explicit natural-number clock. -/
def cacheGet (now : ℕ) (c : Cache) (key : String) : Option (List MEntry) × Cache :=
  match cacheLookup c key with
  | some (t, v) =>
    if now - t < cacheTTL then (some v, c) else (none, cacheRemove c key)
  | none => (none, cacheRemove c key)

/-- `_cache_set` (lines 264–266): dict assignment of `(time.time(), value)`. -/
def cacheSet (now : ℕ) (c : Cache) (key : String) (v : List MEntry) : Cache :=
  if key ∈ c.map Prod.fst then
    c.map (fun e => if e.1 = key then (key, now, v) else e)
  else
    c ++ [(key, now, v)]

/-- `_parse_location` (lines 246–254): returns `(STATE, DISTRICT)` upper-cased,
or `none` when the string is empty or has no comma. -/
def parseLocation (loc : String) : Option (String × String) :=
  if loc = "" ∨ ¬ strContains loc "," then none
  else
    let parts := (splitComma loc.toList).map (fun p => pyStrip (String.mk p))
    if 2 ≤ parts.length then
      some (pyUpper (parts.getLastD ""), pyUpper (parts.headD ""))
    else none

/-- Outcome of one source fetch: the returned value, the cache afterwards, and
whether the network was actually contacted. -/
structure FetchOut where
  result : Option (List MEntry)
  cache : Cache
  netCalled : Bool
  deriving Repr, DecidableEq

/-- `_fetch_enam_prices` (lines 72–118).  `net` abstracts the HTTP POST
together with `_parse_enam_json` / `_parse_enam_html`: `none` covers a non-200
status, a parse that found nothing, and a raised exception; `some l` is the
parsed result (the source parsers return a non-empty list or `None`).  A
truthy cached value is returned without contacting the network; a truthy
parsed result is written to the cache before being returned. -/
def fetchEnamPrices (net : Option (List MEntry)) (now : ℕ) (c : Cache)
    (commodity location : String) : FetchOut :=
  match parseLocation location with
  | none => ⟨none, c, false⟩
  | some (st, di) =>
    let key := "enam:" ++ commodity ++ ":" ++ st ++ ":" ++ di
    let netPart : Cache → FetchOut := fun c1 =>
      match net with
      | none => ⟨none, c1, true⟩
      | some l => ⟨some l, if l ≠ [] then cacheSet now c1 key l else c1, true⟩
    match cacheGet now c key with
    | (some v, c1) => if v ≠ [] then ⟨some v, c1, false⟩ else netPart c1
    | (none, c1) => netPart c1

/-- `_fetch_ceda_prices` (lines 136–169).  `net` abstracts the HTTP GET plus
the row scan: `some e` is the first row whose commodity matches and whose
price validates (the source then caches and returns the singleton `[e]`);
`none` covers everything else, including exceptions. -/
def fetchCedaPrices (net : Option MEntry) (now : ℕ) (c : Cache)
    (commodity : String) : FetchOut :=
  let key := "ceda:" ++ commodity
  let netPart : Cache → FetchOut := fun c1 =>
    match net with
    | none => ⟨none, c1, true⟩
    | some e => ⟨some [e], cacheSet now c1 key [e], true⟩
  match cacheGet now c key with
  | (some v, c1) => if v ≠ [] then ⟨some v, c1, false⟩ else netPart c1
  | (none, c1) => netPart c1

/-- Result of `DirectScrapeTool.execute`, with per-source network flags. -/
structure Tier1Out where
  result : Option (List MEntry)
  cache : Cache
  enamNetCalled : Bool
  cedaNetCalled : Bool
  deriving Repr, DecidableEq

/-- `DirectScrapeTool.execute` (lines 49–70): eNAM first, CEDA as backup
(`self.enabled` is `True` from construction and never changed here). -/
def tier1Execute (enamNet : Option (List MEntry)) (cedaNet : Option MEntry)
    (now : ℕ) (c : Cache) (commodity location : String) : Tier1Out :=
  let e := fetchEnamPrices enamNet now c commodity location
  let cedaPart : Tier1Out :=
    let cd := fetchCedaPrices cedaNet now e.cache commodity
    match cd.result with
    | some l => if l ≠ [] then ⟨some l, cd.cache, e.netCalled, true⟩
                else ⟨none, cd.cache, e.netCalled, true⟩
    | none => ⟨none, cd.cache, e.netCalled, true⟩
  match e.result with
  | some l => if l ≠ [] then ⟨some l, e.cache, e.netCalled, false⟩ else cedaPart
  | none => cedaPart

/-- `_gather_market_data` with the real stateful tier-1 tool in place of the
tier-1 oracle: tiers 2 and 3 (which own no cache at all) stay oracle calls.
Returns the accumulated data, the tier-1 cache afterwards, and which tiers
were invoked. -/
def gatherStateful (enamNet : Option (List MEntry)) (cedaNet : Option MEntry)
    (t2 t3 : Except String (Option (List MEntry))) (now : ℕ) (c : Cache)
    (commodity location : String) : GatherOut × Cache :=
  let o1 := tier1Execute enamNet cedaNet now c commodity location
  let d1 := match o1.result with | some l => l | none => []
  let call2 := d1.length < 3
  let d12 := d1 ++ (if call2 then tierData t2 else [])
  let call3 := d12.length < 5
  let data := d12 ++ (if call3 then tierData t3 else [])
  (⟨data, true, call2, call3⟩, o1.cache)

/-! ### `get_market_prices` (real_market_agent.py lines 495–566) -/

/-- Two-decimal rendering of a rational, standing in for Python
`f"{x:.2f}"` (the source rounds an IEEE double; over the rational embedding we
round half away from zero, which agrees on the values the claims touch). -/
def formatFixed2 (q : ℚ) : String :=
  let cents : ℤ := ⌊q * 100 + 1/2⌋
  let sign := if cents < 0 then "-" else ""
  let n := cents.natAbs
  let r := n % 100
  sign ++ toString (n / 100) ++ "." ++ (if r < 10 then "0" else "") ++ toString r

/-- `_get_fallback_response`, branch with no market data
(real_market_agent.py lines 443–457). -/
def fallbackNoDataResponse : String :=
  "💰 **Market Price Information**\n\n**Current Status:**\n• Market data unavailable for the requested commodity\n• Please check local markets or try again later\n\n**Recommendations:**\n• Visit local mandi or market\n• Check government price portals\n• Contact local traders\n\n*Note: This is a basic response. For detailed analysis, please try again.*"

/-- `_get_fallback_response`, branch with usable prices (lines 460–477). -/
def priceSummaryResponse (commodity : String) (dataLen : ℕ) (prices : List ℚ) : String :=
  let avg := prices.sum / prices.length
  let lo := prices.foldl min (prices.headD 0)
  let hi := prices.foldl max (prices.headD 0)
  "💰 **Market Price Information for " ++ commodity ++ "**\n\n**Current Prices:**\n• Average Price: ₹" ++ formatFixed2 avg ++ " per unit\n• Price Range: ₹" ++ formatFixed2 lo ++ " - ₹" ++ formatFixed2 hi ++ "\n• Data Sources: " ++ toString dataLen ++ " locations\n\n**Recommendations:**\n• Monitor price trends regularly\n• Check local market conditions\n• Consider timing for sales/purchases\n\n*Note: This is a basic analysis. For detailed insights, please try again.*"

/-- `_get_fallback_response`, branch with data but no truthy prices
(lines 479–492). -/
def fallbackLimitedDataResponse : String :=
  "💰 **Market Price Information**\n\n**Current Status:**\n• Limited market data available\n• Further analysis recommended\n\n**Recommendations:**\n• Check local markets\n• Monitor price trends\n• Consult local traders\n\n*Note: This is a basic response. For detailed analysis, please try again.*"

/-- `_get_fallback_response` (lines 441–492); `prices` keeps the items whose
`price` key is truthy (non-zero). -/
def fallbackMarketResponse (commodity : String) (data : List MEntry) : String :=
  if data = [] then fallbackNoDataResponse
  else
    let prices := (data.map MEntry.price).filter (fun p => p ≠ 0)
    if prices ≠ [] then priceSummaryResponse commodity data.length prices
    else fallbackLimitedDataResponse

/-- The fields of the dict `get_market_prices` returns that the claims talk
about, instrumented with which tier tools were invoked. -/
structure MarketOut where
  marketData : List MEntry
  confidence : ℚ
  response : String
  t1Called : Bool
  t2Called : Bool
  t3Called : Bool
  deriving Repr, DecidableEq

/-- `get_market_prices` (real_market_agent.py lines 495–556): data is gathered
only when both `commodity` and `location` are truthy; the confidence is 0.8 /
0.6 / 0.3 by the amount of data; the response comes from the generation
service (`llmResp` oracle) or, when that call raises, from
`_get_fallback_response`.  The trend-analysis, autonomous-decision and
learning steps (steps 2, 3, 5) write only reporting fields none of the claims
reference and each catches its own failures, so they are omitted here. -/
def getMarketPrices (o : TierOutcomes) (llmResp : Except String String)
    (commodity location : String) : MarketOut :=
  if commodity ≠ "" ∧ location ≠ "" then
    let g := gatherMarketData o
    let conf : ℚ :=
      if g.data ≠ [] then (if 3 < g.data.length then 8/10 else 6/10) else 3/10
    let resp :=
      match llmResp with
      | .ok s => s
      | .error _ => fallbackMarketResponse commodity g.data
    ⟨g.data, conf, resp, g.t1Called, g.t2Called, g.t3Called⟩
  else
    let resp :=
      match llmResp with
      | .ok s => s
      | .error _ => fallbackMarketResponse commodity []
    ⟨[], 3/10, resp, false, false, false⟩

/-! ## Theorems -/

/-- The ids present in a response map. -/
def dictKeys (d : List (String × AgentResponse)) : List String := d.map Prod.fst

theorem dictKeys_dictInsert (k : String) (v : AgentResponse)
    (d : List (String × AgentResponse)) :
    dictKeys (dictInsert k v d) =
      if k ∈ dictKeys d then dictKeys d else dictKeys d ++ [k] := by
  unfold dictInsert dictKeys
  split
  · rw [List.map_map]
    congr 1
    funext p
    by_cases hp : p.1 = k <;> simp [hp]
  · simp

theorem mem_dictKeys_dictInsert (a k : String) (v : AgentResponse)
    (d : List (String × AgentResponse)) :
    a ∈ dictKeys (dictInsert k v d) ↔ a = k ∨ a ∈ dictKeys d := by
  rw [dictKeys_dictInsert]
  split
  · next h =>
    constructor
    · exact fun ha => Or.inr ha
    · rintro (rfl | ha)
      · exact h
      · exact ha
  · simp [or_comm]

theorem nodup_dictKeys_dictInsert (k : String) (v : AgentResponse)
    (d : List (String × AgentResponse)) (h : (dictKeys d).Nodup) :
    (dictKeys (dictInsert k v d)).Nodup := by
  rw [dictKeys_dictInsert]
  split
  · exact h
  · next hk => simp [List.nodup_append, h, hk]

theorem execLoop_values (outcomes : String → Except String AgentResponse) :
    ∀ (ns : List String) (acc : List (String × AgentResponse)),
      (∀ p ∈ acc, p.2 = recordOutcome p.1 (outcomes p.1)) →
      ∀ p ∈ execLoop outcomes ns acc, p.2 = recordOutcome p.1 (outcomes p.1)
  | [], acc, h => h
  | n :: rest, acc, h => by
    refine execLoop_values outcomes rest _ ?_
    intro p hp
    unfold dictInsert at hp
    split at hp
    · rcases List.mem_map.mp hp with ⟨q, hq, rfl⟩
      by_cases hqk : q.1 = n
      · simp [hqk, h q hq]
      · simp [hqk, h q hq]
    · rcases List.mem_append.mp hp with hacc | hnew
      · exact h p hacc
      · rcases List.mem_singleton.mp hnew with rfl
        rfl

theorem mem_dictKeys_execLoop (outcomes : String → Except String AgentResponse) :
    ∀ (ns : List String) (acc : List (String × AgentResponse)) (a : String),
      a ∈ dictKeys (execLoop outcomes ns acc) ↔ a ∈ ns ∨ a ∈ dictKeys acc
  | [], acc, a => by simp [execLoop]
  | n :: rest, acc, a => by
    rw [execLoop, mem_dictKeys_execLoop outcomes rest _ a, mem_dictKeys_dictInsert]
    simp [or_comm, or_assoc, or_left_comm]

theorem nodup_dictKeys_execLoop (outcomes : String → Except String AgentResponse) :
    ∀ (ns : List String) (acc : List (String × AgentResponse)),
      (dictKeys acc).Nodup → (dictKeys (execLoop outcomes ns acc)).Nodup
  | [], _, h => h
  | _n :: rest, _acc, h =>
    nodup_dictKeys_execLoop outcomes rest _ (nodup_dictKeys_dictInsert _ _ _ h)

/-- C1 (amended): for every request and every behaviour of the agents, the
result map of `_execute_agents` has exactly one entry per distinct selected
handler id that is in the method map (ids outside the map produce no entry,
and a duplicated id produces a single entry), and each entry is a function of
that handler\x27s own outcome alone: a raised exception is recorded as an
error entry carrying the exception text, and every other handler\x27s entry is
its real outcome, unaffected by the failure. -/
theorem executeAgents_one_entry_per_registered_handler
    (outcomes : String → Except String AgentResponse) (selected : List String) :
    (dictKeys (executeAgentsMap outcomes selected)).Nodup ∧
    (∀ a, a ∈ dictKeys (executeAgentsMap outcomes selected) ↔
      a ∈ selected.filter (fun a => methodMapAgents.contains a)) ∧
    (∀ p ∈ executeAgentsMap outcomes selected,
      p.2 = recordOutcome p.1 (outcomes p.1)) := by
  refine ⟨?_, ?_, ?_⟩
  · exact nodup_dictKeys_execLoop outcomes _ [] (by simp [dictKeys])
  · intro a
    rw [executeAgentsMap, mem_dictKeys_execLoop]
    simp [dictKeys]
  · exact execLoop_values outcomes _ [] (by simp)

/-- C1, claim as stated is false: a request whose selected-handler list is
`["weather", "weather"]` (N = 2) yields a result map with a single entry. -/
theorem executeAgents_duplicate_handler_single_entry :
    (executeAgentsMap (fun _ => .ok ⟨"ok", none⟩) ["weather", "weather"]).length = 1 ∧
    (["weather", "weather"] : List String).length = 2 := by decide

/-- Witness for C1: concrete run with a raising pest agent next to a
succeeding weather agent. -/
theorem executeAgents_one_entry_per_registered_handler_witness :
    (dictKeys (executeAgentsMap
      (fun n => if n = "pest" then .error "boom" else .ok ⟨"fine", none⟩)
      ["weather", "pest"])).Nodup ∧
    (∀ a, a ∈ dictKeys (executeAgentsMap
      (fun n => if n = "pest" then .error "boom" else .ok ⟨"fine", none⟩)
      ["weather", "pest"]) ↔
      a ∈ (["weather", "pest"] : List String).filter (fun a => methodMapAgents.contains a)) ∧
    (∀ p ∈ executeAgentsMap
      (fun n => if n = "pest" then .error "boom" else .ok ⟨"fine", none⟩)
      ["weather", "pest"],
      p.2 = recordOutcome p.1
        ((fun n => if n = "pest" then .error "boom" else .ok ⟨"fine", none⟩) p.1)) :=
  executeAgents_one_entry_per_registered_handler _ _

/-- C2 (amended): `_gather_market_data` attempts tiers in order 1, 2, 3 and
accumulates their results; tier 2 is skipped exactly when tier 1 yielded at
least 3 entries, and tier 3 is skipped exactly when tiers 1–2 accumulated at
least 5 entries — so a validated non-empty tier-1 result with fewer than
3 entries does not stop the escalation. -/
theorem gather_tier_escalation_thresholds (o : TierOutcomes) :
    ((gatherMarketData o).t2Called = false ↔ 3 ≤ (tierData o.t1).length) ∧
    ((gatherMarketData o).t3Called = false ↔
      5 ≤ (tierData o.t1 ++ if (tierData o.t1).length < 3 then tierData o.t2 else []).length) ∧
    ((gatherMarketData o).data =
      tierData o.t1 ++ (if (tierData o.t1).length < 3 then tierData o.t2 else [])
        ++ (if (tierData o.t1 ++ if (tierData o.t1).length < 3 then tierData o.t2 else []).length < 5
            then tierData o.t3 else [])) := by
  refine ⟨?_, ?_, ?_⟩ <;>
    simp [gatherMarketData, decide_eq_false_iff_not, Nat.not_lt, List.append_assoc]

/-- C2, claim as stated is false: tier 1 returns a validated, non-empty
result (one in-range wheat entry), yet tier 2 is invoked for the same fetch. -/
theorem gather_tier2_invoked_after_tier1_success :
    (gatherMarketData
      ⟨.ok (some [{ commodity := "wheat", price := 2000 }]), .ok none, .ok none⟩).t2Called
      = true ∧
    ([{ commodity := "wheat", price := 2000 }] : List MEntry) ≠ [] ∧
    validatePrice 2000 "wheat" = true := by decide

/-- Witness for C2: tier 1 delivering 3 entries skips tier 2 (but not tier 3). -/
theorem gather_tier_escalation_thresholds_witness :
    (gatherMarketData
      ⟨.ok (some [{ commodity := "wheat", price := 2000 },
                  { commodity := "wheat", price := 2100 },
                  { commodity := "wheat", price := 2200 }]), .ok none, .ok none⟩).t2Called
        = false ∧
    (gatherMarketData
      ⟨.ok (some [{ commodity := "wheat", price := 2000 },
                  { commodity := "wheat", price := 2100 },
                  { commodity := "wheat", price := 2200 }]), .ok none, .ok none⟩).t3Called
        = true := by
  have h := gather_tier_escalation_thresholds
    ⟨.ok (some [{ commodity := "wheat", price := 2000 },
                { commodity := "wheat", price := 2100 },
                { commodity := "wheat", price := 2200 }]), .ok none, .ok none⟩
  exact ⟨h.1.mpr (by decide), by decide⟩

/-- C6: when every tier contributes nothing — a raised network error at a tier
(`Except.error`) is caught at that tier alone and counts as a miss, and the
escalation still proceeds to the following tiers — the overall fetch returns
the explicit empty list instead of raising. -/
theorem gather_all_tiers_missed (o : TierOutcomes)
    (h1 : tierData o.t1 = []) (h2 : tierData o.t2 = []) (h3 : tierData o.t3 = []) :
    (gatherMarketData o).data = [] ∧ (gatherMarketData o).t2Called = true ∧
    (gatherMarketData o).t3Called = true := by
  simp [gatherMarketData, h1, h2, h3]

/-- Witness for C6: tier 1 raises a transport error, tier 2 returns `None`,
tier 3 returns an empty list. -/
theorem gather_all_tiers_missed_witness :
    (gatherMarketData ⟨.error "connection timeout", .ok none, .ok (some [])⟩).data = [] ∧
    (gatherMarketData ⟨.error "connection timeout", .ok none, .ok (some [])⟩).t2Called = true ∧
    (gatherMarketData ⟨.error "connection timeout", .ok none, .ok (some [])⟩).t3Called = true :=
  gather_all_tiers_missed _ rfl rfl rfl

theorem executeAgents_selectedAgents (outcomes : String → Except String AgentResponse)
    (st : OrchestratorState) :
    (executeAgents outcomes st).selectedAgents = st.selectedAgents := rfl

theorem synthesizeResponse_selectedAgents (llm : Except String String)
    (userName : String) (st : OrchestratorState) :
    (synthesizeResponse llm userName st).selectedAgents = st.selectedAgents := by
  unfold synthesizeResponse
  rcases llm with e | s
  · rcases h : st.agentResponses with _ | ⟨⟨k, r⟩, rest⟩ <;> simp [h]
  · rfl

/-- C4: a request whose lowercased text contains a word of the static
non-domain keyword set short-circuits routing before any generation call:
zero selected handlers, the canned redirect answer, no classification LLM
call, and zero handler-task creations; moreover every run that ends with zero
selected handlers creates zero handler tasks. -/
theorem non_agri_short_circuit (parse : String → Option Analysis)
    (llmC llmS : Except String String) (outcomes : String → Except String AgentResponse)
    (userName language : String) (st : OrchestratorState)
    (h : isClearlyNonAgri st.query = true) :
    (runWorkflow parse llmC llmS outcomes userName language st).finalState.selectedAgents = [] ∧
    (runWorkflow parse llmC llmS outcomes userName language st).finalState.finalResponse =
      politeResponse userName language ∧
    (runWorkflow parse llmC llmS outcomes userName language st).handlerCalls = 0 ∧
    (runWorkflow parse llmC llmS outcomes userName language st).classifyLLMCalled = false ∧
    (∀ (p : String → Option Analysis) (lc ls : Except String String)
      (oc : String → Except String AgentResponse) (un lg : String) (s2 : OrchestratorState),
      (runWorkflow p lc ls oc un lg s2).finalState.selectedAgents = [] →
      (runWorkflow p lc ls oc un lg s2).handlerCalls = 0) := by
  refine ⟨?_, ?_, ?_, ?_, ?_⟩
  · simp [runWorkflow, analyzeQuery, h]
  · simp [runWorkflow, analyzeQuery, h]
  · simp [runWorkflow, analyzeQuery, h]
  · simp only [runWorkflow, h]
    split <;> simp [h]
  · intro p lc ls oc un lg s2 hsel
    by_cases he : (analyzeQuery p lc un lg s2).selectedAgents.isEmpty
    · simp [runWorkflow, he]
    · exfalso
      have hfix : (runWorkflow p lc ls oc un lg s2).finalState.selectedAgents =
          (analyzeQuery p lc un lg s2).selectedAgents := by
        simp [runWorkflow, he, synthesizeResponse_selectedAgents, executeAgents_selectedAgents]
      rw [hfix] at hsel
      rw [hsel] at he
      simp at he

/-- Witness for C4: the query "I like football" trips the keyword "football". -/
theorem non_agri_short_circuit_witness :
    (runWorkflow (fun _ => none) (.ok "ignored") (.ok "ignored")
      (fun _ => .ok ⟨"fine", none⟩) "Ravi" "en"
      { query := "I like football" }).finalState.selectedAgents = [] ∧
    (runWorkflow (fun _ => none) (.ok "ignored") (.ok "ignored")
      (fun _ => .ok ⟨"fine", none⟩) "Ravi" "en"
      { query := "I like football" }).finalState.finalResponse = politeResponse "Ravi" "en" ∧
    (runWorkflow (fun _ => none) (.ok "ignored") (.ok "ignored")
      (fun _ => .ok ⟨"fine", none⟩) "Ravi" "en"
      { query := "I like football" }).handlerCalls = 0 ∧
    (runWorkflow (fun _ => none) (.ok "ignored") (.ok "ignored")
      (fun _ => .ok ⟨"fine", none⟩) "Ravi" "en"
      { query := "I like football" }).classifyLLMCalled = false ∧
    (∀ (p : String → Option Analysis) (lc ls : Except String String)
      (oc : String → Except String AgentResponse) (un lg : String) (s2 : OrchestratorState),
      (runWorkflow p lc ls oc un lg s2).finalState.selectedAgents = [] →
      (runWorkflow p lc ls oc un lg s2).handlerCalls = 0) :=
  non_agri_short_circuit _ _ _ _ _ _ _ (by decide)

/-- C3, claim as stated is false: with an empty generation reply on the query
"will it rain tomorrow", `_analyze_query` selects the general handler, while
the keyword table the claim promises would select the weather handler. -/
theorem classify_empty_reply_routes_general_not_table :
    (analyzeQuery (fun _ => none) (.ok "") "Farmer" "en"
      { query := "will it rain tomorrow" }).selectedAgents = ["general"] ∧
    simpleRouteQuery "will it rain tomorrow" false = ["weather"] ∧
    (["general"] : List String) ≠ ["weather"] := by decide

/-- C3 (amended): when the classification reply is empty or non-parseable, or
the generation call raises, `_analyze_query` falls back directly to the
general handler with confidence 0.5 and makes no further external call; the
deterministic keyword-to-handler table (`_simple_route_query`, which maps
weather keywords to the weather handler, disease keywords to the pest handler,
market and finance keywords to theirs, defaulting to general) is consulted
only by `_fallback_process_query`, the path taken when the orchestration
workflow invocation itself raises. -/
theorem classify_failure_selects_general (parse : String → Option Analysis)
    (llm : Except String String) (userName language : String) (st : OrchestratorState)
    (hna : isClearlyNonAgri st.query = false)
    (hfail : (∃ e, llm = .error e) ∨ (∃ r, llm = .ok r ∧ pyStrip r = "") ∨
      (∃ r, llm = .ok r ∧ parse (cleanLLMReply r) = none)) :
    (analyzeQuery parse llm userName language st).selectedAgents = ["general"] ∧
    (analyzeQuery parse llm userName language st).routingConfidence = 1/2 ∧
    (∀ (oc : String → Except String AgentResponse) (q : String) (hi : Bool),
      (fallbackProcessQuery oc none q hi).selectedAgents = simpleRouteQuery q hi) ∧
    simpleRouteQuery "rain" false = ["weather"] ∧
    simpleRouteQuery "disease" false = ["pest"] ∧
    simpleRouteQuery "price" false = ["market"] ∧
    simpleRouteQuery "loan" false = ["finance"] ∧
    simpleRouteQuery "hello" false = ["general"] := by
  have key : (analyzeQuery parse llm userName language st).selectedAgents = ["general"] ∧
      (analyzeQuery parse llm userName language st).routingConfidence = 1/2 := by
    unfold analyzeQuery
    rcases hfail with ⟨e, rfl⟩ | ⟨r, rfl, hr⟩ | ⟨r, rfl, hp⟩
    · simp [hna]
    · simp [hna, hr]
    · by_cases hstrip : pyStrip r = "" <;> simp [hna, hstrip, hp]
  exact ⟨key.1, key.2, fun oc q hi => rfl, by decide, by decide, by decide, by decide, by decide⟩

/-- Witness for C3: a whitespace-only classification reply on a wheat-sowing
query. -/
theorem classify_failure_selects_general_witness :
    (analyzeQuery (fun _ => none) (.ok "  ") "Ravi" "en"
      { query := "when to sow wheat" }).selectedAgents = ["general"] ∧
    (analyzeQuery (fun _ => none) (.ok "  ") "Ravi" "en"
      { query := "when to sow wheat" }).routingConfidence = 1/2 ∧
    (∀ (oc : String → Except String AgentResponse) (q : String) (hi : Bool),
      (fallbackProcessQuery oc none q hi).selectedAgents = simpleRouteQuery q hi) ∧
    simpleRouteQuery "rain" false = ["weather"] ∧
    simpleRouteQuery "disease" false = ["pest"] ∧
    simpleRouteQuery "price" false = ["market"] ∧
    simpleRouteQuery "loan" false = ["finance"] ∧
    simpleRouteQuery "hello" false = ["general"] :=
  classify_failure_selects_general _ _ _ _ _ (by decide)
    (Or.inr (Or.inl ⟨"  ", rfl, by decide⟩))

/-- C7, claim as stated is false: when the synthesis generation call raises,
the fallback uses only the FIRST available response — the market handler\x27s
data never reaches the answer — and when every handler failed the fallback
still returns the first error text, not the generic unable-to-process
message. -/
theorem synthesis_fallback_not_concatenation :
    (synthesizeResponse (.error "LLM down") "Farmer"
      { agentResponses := [("weather", ⟨"Sunny today", none⟩),
                           ("market", ⟨"Wheat at 2000 rupees", none⟩)] }).finalResponse
      = "Sunny today" ∧
    strContains "Sunny today" "2000" = false ∧
    (synthesizeResponse (.error "LLM down") "Farmer"
      { agentResponses := [("weather",
          ⟨"weather agent encountered an error", some "boom"⟩)] }).finalResponse
      ≠ "Unable to process your request. Please try again." := by decide

/-- C7 (amended): when the synthesis generation call raises, the synthesizer
falls back to the first available handler response — personalized and
truncated to 100 characters when longer — with quality 0.5; the generic
unable-to-process message (also quality 0.5) is returned only when the
response map is empty; a returned generation string is used as is with
quality 0.9 (no parse step exists). -/
theorem synthesis_fallback_first_or_generic (e userName : String)
    (st : OrchestratorState) :
    (st.agentResponses = [] →
      (synthesizeResponse (.error e) userName st).finalResponse =
        "Unable to process your request. Please try again." ∧
      (synthesizeResponse (.error e) userName st).synthesisQuality = 1/2) ∧
    (∀ (x : String × AgentResponse) (rest : List (String × AgentResponse)),
      st.agentResponses = x :: rest →
      (synthesizeResponse (.error e) userName st).finalResponse =
        (if pyLen x.2.response > 100 then
          "Hello " ++ userName ++ "! " ++ pyTake x.2.response 100 ++ "..."
         else x.2.response) ∧
      (synthesizeResponse (.error e) userName st).synthesisQuality = 1/2) ∧
    (∀ s, (synthesizeResponse (.ok s) userName st).finalResponse = s ∧
      (synthesizeResponse (.ok s) userName st).synthesisQuality = 9/10) := by
  refine ⟨?_, ?_, ?_⟩
  · intro h
    simp [synthesizeResponse, h]
  · intro x rest h
    obtain ⟨k, r⟩ := x
    simp [synthesizeResponse, h, pyLen, pyTake]
  · intro s
    simp [synthesizeResponse]

/-- Witness for C7: one long successful weather response next to a market
response; the fallback is the personalized truncation of the first. -/
theorem synthesis_fallback_first_or_generic_witness :
    (({ agentResponses := [("weather", ⟨"Sunny today", none⟩)] } :
        OrchestratorState).agentResponses = [] →
      (synthesizeResponse (.error "down") "Ravi"
        { agentResponses := [("weather", ⟨"Sunny today", none⟩)] }).finalResponse =
        "Unable to process your request. Please try again." ∧
      (synthesizeResponse (.error "down") "Ravi"
        { agentResponses := [("weather", ⟨"Sunny today", none⟩)] }).synthesisQuality = 1/2) ∧
    (∀ (x : String × AgentResponse) (rest : List (String × AgentResponse)),
      ({ agentResponses := [("weather", ⟨"Sunny today", none⟩)] } :
        OrchestratorState).agentResponses = x :: rest →
      (synthesizeResponse (.error "down") "Ravi"
        { agentResponses := [("weather", ⟨"Sunny today", none⟩)] }).finalResponse =
        (if pyLen x.2.response > 100 then
          "Hello " ++ "Ravi" ++ "! " ++ pyTake x.2.response 100 ++ "..."
         else x.2.response) ∧
      (synthesizeResponse (.error "down") "Ravi"
        { agentResponses := [("weather", ⟨"Sunny today", none⟩)] }).synthesisQuality = 1/2) ∧
    (∀ s, (synthesizeResponse (.ok s) "Ravi"
        { agentResponses := [("weather", ⟨"Sunny today", none⟩)] }).finalResponse = s ∧
      (synthesizeResponse (.ok s) "Ravi"
        { agentResponses := [("weather", ⟨"Sunny today", none⟩)] }).synthesisQuality = 9/10) :=
  synthesis_fallback_first_or_generic "down" "Ravi" _

theorem synthesizeResponse_quality_values (llm : Except String String)
    (userName : String) (st : OrchestratorState) :
    (synthesizeResponse llm userName st).synthesisQuality = 9/10 ∨
    (synthesizeResponse llm userName st).synthesisQuality = 1/2 := by
  unfold synthesizeResponse
  rcases llm with e | s
  · rcases h : st.agentResponses with _ | ⟨⟨k, r⟩, rest⟩ <;> simp [h]
  · simp

theorem runWorkflow_quality_values (parse : String → Option Analysis)
    (llmC llmS : Except String String) (outcomes : String → Except String AgentResponse)
    (userName language : String) (st : OrchestratorState) :
    (runWorkflow parse llmC llmS outcomes userName language st).finalState.synthesisQuality = 1 ∨
    (runWorkflow parse llmC llmS outcomes userName language st).finalState.synthesisQuality = 9/10 ∨
    (runWorkflow parse llmC llmS outcomes userName language st).finalState.synthesisQuality = 1/2 := by
  by_cases hna : isClearlyNonAgri st.query
  · left
    simp [runWorkflow, analyzeQuery, hna]
  · have hsel : (analyzeQuery parse llmC userName language st).selectedAgents.isEmpty = false := by
      unfold analyzeQuery
      rcases llmC with e | r
      · simp [hna]
      · by_cases hstrip : pyStrip r = ""
        · simp [hna, hstrip]
        · rcases hp : parse (cleanLLMReply r) with _ | a <;> simp [hna, hstrip, hp]
    right
    have : (runWorkflow parse llmC llmS outcomes userName language st).finalState =
        synthesizeResponse llmS userName
          (executeAgents outcomes (analyzeQuery parse llmC userName language st)) := by
      simp [runWorkflow, hsel]
    rw [this]
    exact synthesizeResponse_quality_values _ _ _

/-- C8: for every input and every behaviour of the collaborators — including a
raised exception at each modelled point (the classification call, the reply
parse, each agent invocation, the synthesis call, the workflow invocation, the
fallback path, and the outermost handler) — `process_query` returns a normal
result record with a response text and a quality score in [0, 1]; every
failure oracle value is absorbed by a catch branch of the embedding, so no
exception propagates to the caller. -/
theorem processQuery_quality_bounded (parse : String → Option Analysis)
    (llmC llmS : Except String String) (outcomes : String → Except String AgentResponse)
    (outerFails graphFails fallbackFails : Option String)
    (query userName language : String) (hasImage : Bool) :
    0 ≤ (processQuery parse llmC llmS outcomes outerFails graphFails fallbackFails
          query userName language hasImage).synthesisQuality ∧
    (processQuery parse llmC llmS outcomes outerFails graphFails fallbackFails
          query userName language hasImage).synthesisQuality ≤ 1 := by
  unfold processQuery
  rcases outerFails with _ | e
  · rcases graphFails with _ | e2
    · have h := runWorkflow_quality_values parse llmC llmS outcomes userName language
        { query := query }
      rcases h with h | h | h <;> simp [h] <;> norm_num
    · unfold fallbackProcessQuery
      rcases fallbackFails with _ | e3 <;> norm_num
  · norm_num

theorem awaitLoop_eq_add_sum (latency : String → ℕ) :
    ∀ (l : List String) (t : ℕ), awaitLoop latency l t = t + (l.map latency).sum
  | [], t => by simp [awaitLoop]
  | n :: rest, t => by
    rw [awaitLoop, awaitLoop_eq_add_sum latency rest]
    simp [Nat.add_assoc]

/-- C9: the execution step creates bare coroutine objects and awaits them one
after another, so a coroutine starts only when its turn to be awaited comes;
the wall-clock time of the step is therefore the SUM of the selected
handlers\x27 latencies, not their maximum: with two handlers of latency 10
and 20 the step takes 30, while the concurrent fan-out described by the
code\x27s own comments and the specification would take 20. -/
theorem executeAgents_sequential_time_is_sum (latency : String → ℕ)
    (selected : List String) :
    executeAgentsElapsed latency selected =
      ((selected.filter (fun a => methodMapAgents.contains a)).map latency).sum ∧
    executeAgentsElapsed (fun a => if a = "weather" then 10 else 20)
      ["weather", "market"] = 30 ∧
    concurrentElapsed (fun a => if a = "weather" then 10 else 20)
      ["weather", "market"] = 20 ∧
    (30 : ℕ) > 20 := by
  refine ⟨?_, by decide, by decide, by decide⟩
  unfold executeAgentsElapsed
  rw [awaitLoop_eq_add_sum]
  simp

/-- C10: with a missing or empty commodity or location, `get_market_prices`
invokes no tier tool at all and returns an empty `market_data` list with
confidence 0.3. -/
theorem market_missing_context (o : TierOutcomes) (llmResp : Except String String)
    (commodity location : String) (h : commodity = "" ∨ location = "") :
    (getMarketPrices o llmResp commodity location).marketData = [] ∧
    (getMarketPrices o llmResp commodity location).confidence = 3/10 ∧
    (getMarketPrices o llmResp commodity location).t1Called = false ∧
    (getMarketPrices o llmResp commodity location).t2Called = false ∧
    (getMarketPrices o llmResp commodity location).t3Called = false := by
  have hcond : ¬ (commodity ≠ "" ∧ location ≠ "") := by
    rcases h with h | h <;> simp [h]
  unfold getMarketPrices
  rw [if_neg hcond]
  exact ⟨rfl, rfl, rfl, rfl, rfl⟩

/-- Witness for C10: empty commodity, concrete location. -/
theorem market_missing_context_witness :
    (getMarketPrices ⟨.ok none, .ok none, .ok none⟩ (.ok "hi") "" "Delhi").marketData = [] ∧
    (getMarketPrices ⟨.ok none, .ok none, .ok none⟩ (.ok "hi") "" "Delhi").confidence = 3/10 ∧
    (getMarketPrices ⟨.ok none, .ok none, .ok none⟩ (.ok "hi") "" "Delhi").t1Called = false ∧
    (getMarketPrices ⟨.ok none, .ok none, .ok none⟩ (.ok "hi") "" "Delhi").t2Called = false ∧
    (getMarketPrices ⟨.ok none, .ok none, .ok none⟩ (.ok "hi") "" "Delhi").t3Called = false :=
  market_missing_context _ _ _ _ (Or.inl rfl)

theorem cacheLookup_mapUpdate (key : String) (now : ℕ) (v : List MEntry) :
    ∀ (c : Cache), key ∈ c.map Prod.fst →
      cacheLookup (c.map (fun e => if e.1 = key then (key, now, v) else e)) key
        = some (now, v)
  | [], h => by simp at h
  | e :: rest, h => by
    by_cases he : e.1 = key
    · simp [cacheLookup, he]
    · have hrest : key ∈ rest.map Prod.fst := by
        simp only [List.map_cons, List.mem_cons] at h
        rcases h with h | h
        · exact absurd h.symm he
        · exact h
      simp [cacheLookup, he, cacheLookup_mapUpdate key now v rest hrest]

theorem cacheLookup_append_new (key : String) (now : ℕ) (v : List MEntry) :
    ∀ (c : Cache), key ∉ c.map Prod.fst →
      cacheLookup (c ++ [(key, now, v)]) key = some (now, v)
  | [], _ => by simp [cacheLookup]
  | e :: rest, h => by
    have he : ¬ e.1 = key := by
      intro hk
      exact h (by simp [hk])
    have hrest : key ∉ rest.map Prod.fst := fun hm => h (by simp [hm])
    simp [cacheLookup, he, cacheLookup_append_new key now v rest hrest]

theorem cacheLookup_cacheSet_self (now : ℕ) (c : Cache) (key : String)
    (v : List MEntry) :
    cacheLookup (cacheSet now c key v) key = some (now, v) := by
  unfold cacheSet
  split
  · next h => exact cacheLookup_mapUpdate key now v c h
  · next h => exact cacheLookup_append_new key now v c h

theorem cacheRemove_eq_of_lookup_none :
    ∀ (c : Cache) (key : String), cacheLookup c key = none → cacheRemove c key = c
  | [], _, _ => rfl
  | e :: rest, key, h => by
    by_cases he : e.1 = key
    · simp [cacheLookup, he] at h
    · have hrest := cacheRemove_eq_of_lookup_none rest key (by simpa [cacheLookup, he] using h)
      simp [cacheRemove] at hrest ⊢
      exact ⟨he, hrest⟩

/-- Helper: a cache miss followed by a successful network parse writes the
parsed value with the current time and returns it. -/
theorem fetchEnam_network_success (net : Option (List MEntry)) (now : ℕ) (c : Cache)
    (commodity location st di : String) (l : List MEntry)
    (hparse : parseLocation location = some (st, di))
    (hmiss : cacheLookup c ("enam:" ++ commodity ++ ":" ++ st ++ ":" ++ di) = none)
    (hnet : net = some l) (hl : l ≠ []) :
    fetchEnamPrices net now c commodity location =
      ⟨some l, cacheSet now c ("enam:" ++ commodity ++ ":" ++ st ++ ":" ++ di) l, true⟩ := by
  subst hnet
  unfold fetchEnamPrices
  rw [hparse]
  simp only [cacheGet, hmiss, cacheRemove_eq_of_lookup_none c _ hmiss]
  simp [hl]

/-- C5 (amended): the in-memory cache of the tiered fetch lives inside the
tier-1 tool and is keyed per data source (`enam:commodity:STATE:DISTRICT`,
`ceda:commodity`): (1) an entry whose age has reached the 900-second TTL is
treated as absent and removed on read; (2) a fresh entry is returned with the
cache unchanged; (3) on a miss, a successful eNAM parse is written to the
cache with created-at equal to the current time before being returned; (4) a
second tier-1 fetch with the identical key within the TTL window returns the
identical result without contacting the eNAM or CEDA network.  (Tier-2/3
results are never cached — see the counterexample theorem.) -/
theorem tier1_cache_semantics :
    (∀ (now : ℕ) (c : Cache) (key : String) (t : ℕ) (v : List MEntry),
      cacheLookup c key = some (t, v) → cacheTTL ≤ now - t →
      cacheGet now c key = (none, cacheRemove c key)) ∧
    (∀ (now : ℕ) (c : Cache) (key : String) (t : ℕ) (v : List MEntry),
      cacheLookup c key = some (t, v) → now - t < cacheTTL →
      cacheGet now c key = (some v, c)) ∧
    (∀ (net : Option (List MEntry)) (now : ℕ) (c : Cache)
      (commodity location st di : String) (l : List MEntry),
      parseLocation location = some (st, di) →
      cacheLookup c ("enam:" ++ commodity ++ ":" ++ st ++ ":" ++ di) = none →
      net = some l → l ≠ [] →
      fetchEnamPrices net now c commodity location =
        ⟨some l, cacheSet now c ("enam:" ++ commodity ++ ":" ++ st ++ ":" ++ di) l, true⟩) ∧
    (∀ (net net2 : Option (List MEntry)) (cedaNet : Option MEntry) (now later : ℕ)
      (c : Cache) (commodity location st di : String) (l : List MEntry),
      parseLocation location = some (st, di) →
      cacheLookup c ("enam:" ++ commodity ++ ":" ++ st ++ ":" ++ di) = none →
      net = some l → l ≠ [] → later - now < cacheTTL →
      tier1Execute net2 cedaNet later (fetchEnamPrices net now c commodity location).cache
          commodity location =
        ⟨some l, (fetchEnamPrices net now c commodity location).cache, false, false⟩) := by
  refine ⟨?_, ?_, ?_, ?_⟩
  · intro now c key t v hlook httl
    simp [cacheGet, hlook, Nat.not_lt.mpr httl]
  · intro now c key t v hlook httl
    simp [cacheGet, hlook, httl]
  · intro net now c commodity location st di l hparse hmiss hnet hl
    exact fetchEnam_network_success net now c commodity location st di l hparse hmiss hnet hl
  · intro net net2 cedaNet now later c commodity location st di l hparse hmiss hnet hl httl
    have hc2 : (fetchEnamPrices net now c commodity location).cache =
        cacheSet now c ("enam:" ++ commodity ++ ":" ++ st ++ ":" ++ di) l := by
      rw [fetchEnam_network_success net now c commodity location st di l hparse hmiss hnet hl]
    rw [hc2]
    unfold tier1Execute fetchEnamPrices
    rw [hparse]
    simp only [cacheGet, cacheLookup_cacheSet_self, httl, if_pos]
    simp [hl]

/-- C5, claim as stated is false: a successful tier-2 result is not written to
any cache, so an identical fetch immediately afterwards (well within the
15-minute TTL) invokes tier 2 again. -/
theorem gather_reinvokes_tier2_within_ttl :
    (gatherStateful none none
      (.ok (some [{ commodity := "wheat", price := 2000 },
                  { commodity := "wheat", price := 2050 },
                  { commodity := "wheat", price := 2100 },
                  { commodity := "wheat", price := 2150 },
                  { commodity := "wheat", price := 2200 }])) (.ok none)
      0 [] "wheat" "Pune, Maharashtra").1.t2Called = true ∧
    (gatherStateful none none
      (.ok (some [{ commodity := "wheat", price := 2000 },
                  { commodity := "wheat", price := 2050 },
                  { commodity := "wheat", price := 2100 },
                  { commodity := "wheat", price := 2150 },
                  { commodity := "wheat", price := 2200 }])) (.ok none)
      0 [] "wheat" "Pune, Maharashtra").1.data ≠ [] ∧
    (gatherStateful none none
      (.ok (some [{ commodity := "wheat", price := 2000 },
                  { commodity := "wheat", price := 2050 },
                  { commodity := "wheat", price := 2100 },
                  { commodity := "wheat", price := 2150 },
                  { commodity := "wheat", price := 2200 }])) (.ok none)
      1
      (gatherStateful none none
        (.ok (some [{ commodity := "wheat", price := 2000 },
                    { commodity := "wheat", price := 2050 },
                    { commodity := "wheat", price := 2100 },
                    { commodity := "wheat", price := 2150 },
                    { commodity := "wheat", price := 2200 }])) (.ok none)
        0 [] "wheat" "Pune, Maharashtra").2
      "wheat" "Pune, Maharashtra").1.t2Called = true := by decide

/-- Witness for C5: a concrete eNAM fetch at time 0 on an empty cache followed
by a full tier-1 execution at time 100 that is served from the cache without
any network call; plus a concrete expiry at time 900. -/
theorem tier1_cache_semantics_witness :
    cacheGet 900 [("k", 0, [{ commodity := "wheat", price := 2000 }])] "k" =
      (none, cacheRemove [("k", 0, [{ commodity := "wheat", price := 2000 }])] "k") ∧
    cacheGet 100 [("k", 0, [{ commodity := "wheat", price := 2000 }])] "k" =
      (some [{ commodity := "wheat", price := 2000 }],
        [("k", 0, [{ commodity := "wheat", price := 2000 }])]) ∧
    fetchEnamPrices (some [{ commodity := "wheat", price := 2000 }]) 0 []
        "wheat" "Pune, Maharashtra" =
      ⟨some [{ commodity := "wheat", price := 2000 }],
        cacheSet 0 [] ("enam:" ++ "wheat" ++ ":" ++ "MAHARASHTRA" ++ ":" ++ "PUNE")
          [{ commodity := "wheat", price := 2000 }], true⟩ ∧
    tier1Execute none none 100
        (fetchEnamPrices (some [{ commodity := "wheat", price := 2000 }]) 0 []
          "wheat" "Pune, Maharashtra").cache "wheat" "Pune, Maharashtra" =
      ⟨some [{ commodity := "wheat", price := 2000 }],
        (fetchEnamPrices (some [{ commodity := "wheat", price := 2000 }]) 0 []
          "wheat" "Pune, Maharashtra").cache, false, false⟩ :=
  ⟨tier1_cache_semantics.1 900 _ "k" 0 _ rfl (by decide),
   tier1_cache_semantics.2.1 100 _ "k" 0 _ rfl (by decide),
   tier1_cache_semantics.2.2.1 _ 0 [] "wheat" "Pune, Maharashtra" "MAHARASHTRA" "PUNE" _
     (by decide) rfl rfl (by decide),
   tier1_cache_semantics.2.2.2 _ none none 0 100 [] "wheat" "Pune, Maharashtra"
     "MAHARASHTRA" "PUNE" _ (by decide) rfl rfl (by decide) (by decide)⟩

end KrishiBandhu
